import Mathlib

/-!
Shallow embedding of the cable-robot calibration program
`src/cable-robot/src/main.py` (pybricks, Lego Inventor hub).

The program is a linear top-level script: it tensions four corner motors,
then visits the four corners in a fixed rotation (top-left, bottom-right,
bottom-left, top-right), driving each corner to its mechanical limit by
stall detection while recording encoder bounds, and finally computes the
travel centers and drives all motors there.

The embedding below transcribes, from the source:
  - the configuration constants (lines 39-63),
  - each async stage function as a pair of a combinator mode and the list
    of motor commands it issues (lines 212-234, 267-297, 312-340, 359-378,
    410-432, 454-482, 501-520, 570-598, 617-636, 686-714, 733-752,
    820-844),
  - the top-level script as an ordered list of events (commands, travel
    variable assignments, waits), parameterized over the encoder readings
    returned by `motor.angle()` at each read point (the readings are the
    only external inputs; control flow does not depend on them),
  - the state of the module-level travel variables, threaded through the
    event list, with `Option` for the Python `None` initial values,
  - the center computation (lines 801-813), where Python true division is
    embedded as exact division in `ℚ` (exact for the half-integer values
    arising here) and an operation on an unset (`None`) operand raises a
    TypeError, embedded as `Except.error PyError.typeError`.

The pybricks `multitask` combinator and the scheduler are external to the
repository; their contract (join-all vs race with sibling cancellation) is
modelled abstractly at the end of the definitions, following the
documented interface.
-/

namespace CableRobot

/-- The four corner motors of the rig (source lines 75, 90, 105, 120). -/
inductive Corner
  | TL
  | BR
  | TR
  | BL
deriving DecidableEq

/-- Terminal behavior of a motor command: Stop.HOLD or Stop.COAST. -/
inductive StopKind
  | hold
  | coast
deriving DecidableEq

/-- Motor commands of the pybricks actuator interface as used by main.py. -/
inductive Cmd
  | runUntilStalled (m : Corner) (speed : Int) (thenStop : StopKind) (dutyLimit : Int)
  | runTime (m : Corner) (speed : Int) (timeMs : Int) (thenStop : StopKind) (waitFlag : Bool)
  | runTarget (m : Corner) (speed : Int) (target : Option ℚ) (thenStop : StopKind)
  | holdPos (m : Corner)
deriving DecidableEq

/-- Combinator modes of pybricks multitask: join-all (default) or race. -/
inductive Mode
  | joinAll
  | race
deriving DecidableEq

-- Model constants, source lines 39-63.

def STALL_TENSION_CLUTCH_DUTY_LIMIT : Int := 22

def STALL_COLLISION_CLUTCH_DUTY_LIMIT : Int := 18

def SPEED_MAX_ANGLE_PER_SEC_CALIBRATION : Int := 300

def SPEED_MAX_ANGLE_PER_SEC : Int := 1500

def RELAX_TIME : Int := 1000

def RELAX_SETTLE_TIME : Int := 500

-- Speed direction sign multipliers, source lines 70-71.

def reel_in : Int := 1

def reel_out : Int := reel_in * -1

/-- The module-level travel variables of main.py (lines 82-131): the four
per-motor travel profiles. Every field starts as Python `None`. -/
inductive Field
  | top_left_travel_min
  | top_left_travel_max
  | top_left_travel_left_neighbor
  | top_left_travel_right_neighbor
  | bottom_right_travel_min
  | bottom_right_travel_max
  | bottom_right_travel_left_neighbor
  | bottom_right_travel_right_neighbor
  | top_right_travel_min
  | top_right_travel_max
  | top_right_travel_left_neighbor
  | top_right_travel_right_neighbor
  | bottom_left_travel_min
  | bottom_left_travel_max
  | bottom_left_travel_left_neighbor
  | bottom_left_travel_right_neighbor
deriving DecidableEq

/-- Stage labels for the top-level script, following the stage comments of
main.py (Stage 1.1 through Stage 3.2). All stages of parts 1 and 2 belong
to the calibration pass; stage 3.1 computes centers and stage 3.2 is the
final operating move. -/
inductive StageTag
  | tension_all
  | relax_initial
  | drive_to_limit (c : Corner)
  | save_zero (c : Corner)
  | hold_zero (c : Corner)
  | tension_partners_of (c : Corner)
  | save_partners (c : Corner)
  | relax_after_partners (c : Corner)
  | return_to_origin (c : Corner)
  | relax_at_origin (c : Corner)
  | compute_centers
  | travel_center
deriving DecidableEq

/-- Python runtime failures relevant to the center computation. A
`typeError` is what Python raises when arithmetic is applied to `None`.
Modelled from the spec: `notCalibratedError` is the designated
"not calibrated" failure the specification demands for premature center
computation or orchestrated motion; the source never raises it. -/
inductive PyError
  | typeError
  | notCalibratedError
deriving DecidableEq

/-- Events of the top-level script: a motor command (with the combinator
mode of its enclosing multitask call, `none` for a direct call such as
`top_left.hold()`), an assignment to a travel variable, an assignment of a
computed center, a blocking wait, or an uncaught Python error aborting the
script. -/
inductive Event
  | command (tag : StageTag) (mode : Option Mode) (c : Cmd)
  | assignB (tag : StageTag) (f : Field) (v : Int)
  | assignC (tag : StageTag) (c : Corner) (v : ℚ)
  | waitMs (tag : StageTag) (ms : Int)
  | pyCrash (e : PyError)
deriving DecidableEq

/-- Encoder readings: the value `motor.angle()` returns at each read point
of the script that is stored into a variable, named by stage number and
motor. These are the external inputs of the program. The reads at lines
237-240 (pre-tension origin) are only printed and are omitted. -/
structure Readings where
  ang_1_1_tl : Int
  ang_1_1_br : Int
  ang_1_1_tr : Int
  ang_1_1_bl : Int
  ang_2_1_2_tl : Int
  ang_2_1_5_br : Int
  ang_2_1_5_tr : Int
  ang_2_1_5_bl : Int
  ang_2_2_2_br : Int
  ang_2_2_5_tl : Int
  ang_2_2_5_tr : Int
  ang_2_2_5_bl : Int
  ang_2_3_2_bl : Int
  ang_2_3_5_tr : Int
  ang_2_3_5_tl : Int
  ang_2_3_5_br : Int
  ang_2_4_2_tr : Int
  ang_2_4_5_bl : Int
  ang_2_4_5_tl : Int
  ang_2_4_5_br : Int

/-- The module-level travel state of main.py: sixteen bound variables and
four center variables, all initially `None`. -/
structure CalibState where
  top_left_travel_min : Option Int
  top_left_travel_max : Option Int
  top_left_travel_center : Option ℚ
  top_left_travel_left_neighbor : Option Int
  top_left_travel_right_neighbor : Option Int
  bottom_right_travel_min : Option Int
  bottom_right_travel_max : Option Int
  bottom_right_travel_center : Option ℚ
  bottom_right_travel_left_neighbor : Option Int
  bottom_right_travel_right_neighbor : Option Int
  top_right_travel_min : Option Int
  top_right_travel_max : Option Int
  top_right_travel_center : Option ℚ
  top_right_travel_left_neighbor : Option Int
  top_right_travel_right_neighbor : Option Int
  bottom_left_travel_min : Option Int
  bottom_left_travel_max : Option Int
  bottom_left_travel_center : Option ℚ
  bottom_left_travel_left_neighbor : Option Int
  bottom_left_travel_right_neighbor : Option Int

def initState : CalibState :=
  ⟨none, none, none, none, none,
   none, none, none, none, none,
   none, none, none, none, none,
   none, none, none, none, none⟩

-- Stage functions, transcribed from main.py.

/-- Stage 1.1 (lines 212-234): reel all four motors inward until each
stalls under the tension duty limit, holding on stall; join-all. -/
def bring_under_tension (speed : Int) : Mode × List Cmd :=
  (Mode.joinAll,
   [ Cmd.runUntilStalled .TL (speed * reel_in) .hold STALL_TENSION_CLUTCH_DUTY_LIMIT,
     Cmd.runUntilStalled .BR (speed * reel_in) .hold STALL_TENSION_CLUTCH_DUTY_LIMIT,
     Cmd.runUntilStalled .TR (speed * reel_in) .hold STALL_TENSION_CLUTCH_DUTY_LIMIT,
     Cmd.runUntilStalled .BL (speed * reel_in) .hold STALL_TENSION_CLUTCH_DUTY_LIMIT ])

/-- Stage 1.2 helper (lines 267-297): four non-blocking reel-out run_time
commands, then a blocking wait of `time + add_wait` milliseconds. Returns
the command list and the wait duration. The commands depend only on the
configuration arguments, never on encoder feedback. -/
def relax_tension (speed time add_wait : Int) : List Cmd × Int :=
  ([ Cmd.runTime .TL (speed * reel_out) time .coast false,
     Cmd.runTime .BR (speed * reel_out) time .coast false,
     Cmd.runTime .TR (speed * reel_out) time .coast false,
     Cmd.runTime .BL (speed * reel_out) time .coast false ],
   time + add_wait)

/-- Stage 2.1.1 (lines 312-340): top-left reels in, the other three reel
out, all under the collision duty limit; race mode. -/
def travel_to_top_left_zero_position (speed : Int) : Mode × List Cmd :=
  (Mode.race,
   [ Cmd.runUntilStalled .TL (speed * reel_in) .hold STALL_COLLISION_CLUTCH_DUTY_LIMIT,
     Cmd.runUntilStalled .BR (speed * reel_out) .hold STALL_COLLISION_CLUTCH_DUTY_LIMIT,
     Cmd.runUntilStalled .TR (speed * reel_out) .hold STALL_COLLISION_CLUTCH_DUTY_LIMIT,
     Cmd.runUntilStalled .BL (speed * reel_out) .hold STALL_COLLISION_CLUTCH_DUTY_LIMIT ])

/-- Stage 2.1.4 (lines 359-378): the three partners of top-left reel in
under the tension duty limit; join-all. -/
def tension_top_left_partners (speed : Int) : Mode × List Cmd :=
  (Mode.joinAll,
   [ Cmd.runUntilStalled .BR (speed * reel_in) .hold STALL_TENSION_CLUTCH_DUTY_LIMIT,
     Cmd.runUntilStalled .TR (speed * reel_in) .hold STALL_TENSION_CLUTCH_DUTY_LIMIT,
     Cmd.runUntilStalled .BL (speed * reel_in) .hold STALL_TENSION_CLUTCH_DUTY_LIMIT ])

/-- Stage 2.x.7 (lines 410-432): drive all four motors back to the
tensioned calibration origin at the operating speed ceiling; join-all.
The source reads the module variables assigned exactly once at lines
252-255 from the readings after stage 1.1. -/
def move_to_tensioned_calibration_origin (r : Readings) : Mode × List Cmd :=
  (Mode.joinAll,
   [ Cmd.runTarget .TL SPEED_MAX_ANGLE_PER_SEC (some ((r.ang_1_1_tl : ℚ))) .coast,
     Cmd.runTarget .BR SPEED_MAX_ANGLE_PER_SEC (some ((r.ang_1_1_br : ℚ))) .coast,
     Cmd.runTarget .TR SPEED_MAX_ANGLE_PER_SEC (some ((r.ang_1_1_tr : ℚ))) .coast,
     Cmd.runTarget .BL SPEED_MAX_ANGLE_PER_SEC (some ((r.ang_1_1_bl : ℚ))) .coast ])

/-- Stage 2.2.1 (lines 454-482): bottom-right reels in, others out; race. -/
def travel_to_bottom_right_zero_position (speed : Int) : Mode × List Cmd :=
  (Mode.race,
   [ Cmd.runUntilStalled .BR (speed * reel_in) .hold STALL_COLLISION_CLUTCH_DUTY_LIMIT,
     Cmd.runUntilStalled .TL (speed * reel_out) .hold STALL_COLLISION_CLUTCH_DUTY_LIMIT,
     Cmd.runUntilStalled .TR (speed * reel_out) .hold STALL_COLLISION_CLUTCH_DUTY_LIMIT,
     Cmd.runUntilStalled .BL (speed * reel_out) .hold STALL_COLLISION_CLUTCH_DUTY_LIMIT ])

/-- Stage 2.2.4 (lines 501-520): partners of bottom-right reel in; join-all. -/
def tension_bottom_right_partners (speed : Int) : Mode × List Cmd :=
  (Mode.joinAll,
   [ Cmd.runUntilStalled .TL (speed * reel_in) .hold STALL_TENSION_CLUTCH_DUTY_LIMIT,
     Cmd.runUntilStalled .TR (speed * reel_in) .hold STALL_TENSION_CLUTCH_DUTY_LIMIT,
     Cmd.runUntilStalled .BL (speed * reel_in) .hold STALL_TENSION_CLUTCH_DUTY_LIMIT ])

/-- Stage 2.3.1 (lines 570-598): bottom-left reels in, others out; race. -/
def travel_to_bottom_left_zero_position (speed : Int) : Mode × List Cmd :=
  (Mode.race,
   [ Cmd.runUntilStalled .BL (speed * reel_in) .hold STALL_COLLISION_CLUTCH_DUTY_LIMIT,
     Cmd.runUntilStalled .TL (speed * reel_out) .hold STALL_COLLISION_CLUTCH_DUTY_LIMIT,
     Cmd.runUntilStalled .TR (speed * reel_out) .hold STALL_COLLISION_CLUTCH_DUTY_LIMIT,
     Cmd.runUntilStalled .BR (speed * reel_out) .hold STALL_COLLISION_CLUTCH_DUTY_LIMIT ])

/-- Stage 2.3.4 (lines 617-636): partners of bottom-left reel in; join-all. -/
def tension_bottom_left_partners (speed : Int) : Mode × List Cmd :=
  (Mode.joinAll,
   [ Cmd.runUntilStalled .TL (speed * reel_in) .hold STALL_TENSION_CLUTCH_DUTY_LIMIT,
     Cmd.runUntilStalled .TR (speed * reel_in) .hold STALL_TENSION_CLUTCH_DUTY_LIMIT,
     Cmd.runUntilStalled .BR (speed * reel_in) .hold STALL_TENSION_CLUTCH_DUTY_LIMIT ])

/-- Stage 2.4.1 (lines 686-714): top-right reels in, others out; race. -/
def travel_to_top_right_zero_position (speed : Int) : Mode × List Cmd :=
  (Mode.race,
   [ Cmd.runUntilStalled .TR (speed * reel_in) .hold STALL_COLLISION_CLUTCH_DUTY_LIMIT,
     Cmd.runUntilStalled .TL (speed * reel_out) .hold STALL_COLLISION_CLUTCH_DUTY_LIMIT,
     Cmd.runUntilStalled .BL (speed * reel_out) .hold STALL_COLLISION_CLUTCH_DUTY_LIMIT,
     Cmd.runUntilStalled .BR (speed * reel_out) .hold STALL_COLLISION_CLUTCH_DUTY_LIMIT ])

/-- Stage 2.4.4 (lines 733-752): partners of top-right reel in; join-all. -/
def tension_top_right_partners (speed : Int) : Mode × List Cmd :=
  (Mode.joinAll,
   [ Cmd.runUntilStalled .TL (speed * reel_in) .hold STALL_TENSION_CLUTCH_DUTY_LIMIT,
     Cmd.runUntilStalled .BL (speed * reel_in) .hold STALL_TENSION_CLUTCH_DUTY_LIMIT,
     Cmd.runUntilStalled .BR (speed * reel_in) .hold STALL_TENSION_CLUTCH_DUTY_LIMIT ])

/-- The center expression of stage 3.1 (for example line 801-803:
`(top_left_travel_max - top_left_travel_min) / 2 + top_left_travel_min`).
Python true division is exact division in `ℚ`; applying `-` to a `None`
operand raises a TypeError. -/
def travel_center_expr (mx mn : Option Int) : Except PyError ℚ :=
  match mx, mn with
  | some mx, some mn => .ok (((mx - mn : Int) : ℚ) / 2 + ((mn : Int) : ℚ))
  | _, _ => .error .typeError

/-- Stage 3.2 (lines 820-844): drive all four motors to the values held by
the center variables at the operating speed ceiling, hold on arrival;
join-all. The target values are passed exactly as stored (unset centers
would be passed as `None`). -/
def travel_to_center (speed : Int) (s : CalibState) : Mode × List Cmd :=
  (Mode.joinAll,
   [ Cmd.runTarget .TL speed s.top_left_travel_center .hold,
     Cmd.runTarget .BR speed s.bottom_right_travel_center .hold,
     Cmd.runTarget .TR speed s.top_right_travel_center .hold,
     Cmd.runTarget .BL speed s.bottom_left_travel_center .hold ])

-- The top-level script as an event trace.

def stageEvents (tag : StageTag) (s : Mode × List Cmd) : List Event :=
  s.2.map (fun c => Event.command tag (some s.1) c)

/-- The events of one `relax_tension()` call (invoked with the default
arguments everywhere in the script): four non-blocking commands followed
by the blocking settle wait. -/
def relaxEvents (tag : StageTag) : List Event :=
  ((relax_tension SPEED_MAX_ANGLE_PER_SEC_CALIBRATION RELAX_TIME RELAX_SETTLE_TIME).1.map
    (fun c => Event.command tag none c))
  ++ [ Event.waitMs tag
        (relax_tension SPEED_MAX_ANGLE_PER_SEC_CALIBRATION RELAX_TIME RELAX_SETTLE_TIME).2 ]

/-- The calibration part of the top-level script (lines 250-798), in
source order. Note stage 2.3.3 (line 611): the source calls
`bottom_right.hold()`, not `bottom_left.hold()`, although its comment and
print say bottom-left; the trace records what the code does. -/
def calibEvents (r : Readings) : List Event :=
  stageEvents .tension_all (bring_under_tension SPEED_MAX_ANGLE_PER_SEC_CALIBRATION)
  ++ relaxEvents .relax_initial
  ++ stageEvents (.drive_to_limit .TL) (travel_to_top_left_zero_position SPEED_MAX_ANGLE_PER_SEC_CALIBRATION)
  ++ [ Event.assignB (.save_zero .TL) .top_left_travel_min r.ang_2_1_2_tl ]
  ++ [ Event.command (.hold_zero .TL) none (Cmd.holdPos .TL) ]
  ++ stageEvents (.tension_partners_of .TL) (tension_top_left_partners SPEED_MAX_ANGLE_PER_SEC_CALIBRATION)
  ++ [ Event.assignB (.save_partners .TL) .bottom_right_travel_max r.ang_2_1_5_br,
       Event.assignB (.save_partners .TL) .top_right_travel_right_neighbor r.ang_2_1_5_tr,
       Event.assignB (.save_partners .TL) .bottom_left_travel_left_neighbor r.ang_2_1_5_bl ]
  ++ relaxEvents (.relax_after_partners .TL)
  ++ stageEvents (.return_to_origin .TL) (move_to_tensioned_calibration_origin r)
  ++ relaxEvents (.relax_at_origin .TL)
  ++ stageEvents (.drive_to_limit .BR) (travel_to_bottom_right_zero_position SPEED_MAX_ANGLE_PER_SEC_CALIBRATION)
  ++ [ Event.assignB (.save_zero .BR) .bottom_right_travel_min r.ang_2_2_2_br ]
  ++ [ Event.command (.hold_zero .BR) none (Cmd.holdPos .BR) ]
  ++ stageEvents (.tension_partners_of .BR) (tension_bottom_right_partners SPEED_MAX_ANGLE_PER_SEC_CALIBRATION)
  ++ [ Event.assignB (.save_partners .BR) .top_left_travel_max r.ang_2_2_5_tl,
       Event.assignB (.save_partners .BR) .top_right_travel_left_neighbor r.ang_2_2_5_tr,
       Event.assignB (.save_partners .BR) .bottom_left_travel_right_neighbor r.ang_2_2_5_bl ]
  ++ relaxEvents (.relax_after_partners .BR)
  ++ stageEvents (.return_to_origin .BR) (move_to_tensioned_calibration_origin r)
  ++ relaxEvents (.relax_at_origin .BR)
  ++ stageEvents (.drive_to_limit .BL) (travel_to_bottom_left_zero_position SPEED_MAX_ANGLE_PER_SEC_CALIBRATION)
  ++ [ Event.assignB (.save_zero .BL) .bottom_left_travel_min r.ang_2_3_2_bl ]
  ++ [ Event.command (.hold_zero .BL) none (Cmd.holdPos .BR) ]
  ++ stageEvents (.tension_partners_of .BL) (tension_bottom_left_partners SPEED_MAX_ANGLE_PER_SEC_CALIBRATION)
  ++ [ Event.assignB (.save_partners .BL) .top_right_travel_max r.ang_2_3_5_tr,
       Event.assignB (.save_partners .BL) .top_left_travel_right_neighbor r.ang_2_3_5_tl,
       Event.assignB (.save_partners .BL) .bottom_right_travel_left_neighbor r.ang_2_3_5_br ]
  ++ relaxEvents (.relax_after_partners .BL)
  ++ stageEvents (.return_to_origin .BL) (move_to_tensioned_calibration_origin r)
  ++ relaxEvents (.relax_at_origin .BL)
  ++ stageEvents (.drive_to_limit .TR) (travel_to_top_right_zero_position SPEED_MAX_ANGLE_PER_SEC_CALIBRATION)
  ++ [ Event.assignB (.save_zero .TR) .top_right_travel_min r.ang_2_4_2_tr ]
  ++ [ Event.command (.hold_zero .TR) none (Cmd.holdPos .TR) ]
  ++ stageEvents (.tension_partners_of .TR) (tension_top_right_partners SPEED_MAX_ANGLE_PER_SEC_CALIBRATION)
  ++ [ Event.assignB (.save_partners .TR) .bottom_left_travel_max r.ang_2_4_5_bl,
       Event.assignB (.save_partners .TR) .top_left_travel_left_neighbor r.ang_2_4_5_tl,
       Event.assignB (.save_partners .TR) .bottom_right_travel_right_neighbor r.ang_2_4_5_br ]
  ++ relaxEvents (.relax_after_partners .TR)
  ++ stageEvents (.return_to_origin .TR) (move_to_tensioned_calibration_origin r)
  ++ relaxEvents (.relax_at_origin .TR)

def setField (s : CalibState) (f : Field) (v : Int) : CalibState :=
  match f with
  | .top_left_travel_min => { s with top_left_travel_min := some v }
  | .top_left_travel_max => { s with top_left_travel_max := some v }
  | .top_left_travel_left_neighbor => { s with top_left_travel_left_neighbor := some v }
  | .top_left_travel_right_neighbor => { s with top_left_travel_right_neighbor := some v }
  | .bottom_right_travel_min => { s with bottom_right_travel_min := some v }
  | .bottom_right_travel_max => { s with bottom_right_travel_max := some v }
  | .bottom_right_travel_left_neighbor => { s with bottom_right_travel_left_neighbor := some v }
  | .bottom_right_travel_right_neighbor => { s with bottom_right_travel_right_neighbor := some v }
  | .top_right_travel_min => { s with top_right_travel_min := some v }
  | .top_right_travel_max => { s with top_right_travel_max := some v }
  | .top_right_travel_left_neighbor => { s with top_right_travel_left_neighbor := some v }
  | .top_right_travel_right_neighbor => { s with top_right_travel_right_neighbor := some v }
  | .bottom_left_travel_min => { s with bottom_left_travel_min := some v }
  | .bottom_left_travel_max => { s with bottom_left_travel_max := some v }
  | .bottom_left_travel_left_neighbor => { s with bottom_left_travel_left_neighbor := some v }
  | .bottom_left_travel_right_neighbor => { s with bottom_left_travel_right_neighbor := some v }

def setCenter (s : CalibState) (c : Corner) (v : ℚ) : CalibState :=
  match c with
  | .TL => { s with top_left_travel_center := some v }
  | .BR => { s with bottom_right_travel_center := some v }
  | .TR => { s with top_right_travel_center := some v }
  | .BL => { s with bottom_left_travel_center := some v }

def applyEvent (s : CalibState) (e : Event) : CalibState :=
  match e with
  | .assignB _ f v => setField s f v
  | .assignC _ c v => setCenter s c v
  | _ => s

def runEvents (s : CalibState) (es : List Event) : CalibState :=
  es.foldl applyEvent s

/-- The travel state after the calibration pass (end of stage 2.4.8). -/
def calibState (r : Readings) : CalibState :=
  runEvents initState (calibEvents r)

/-- Stage 3.1 (lines 800-813): compute the four centers, in source order
top-left, bottom-right, bottom-left, top-right. Any unset bound aborts
with the Python TypeError. -/
def centersEvents (s : CalibState) : Except PyError (List Event) :=
  match travel_center_expr s.top_left_travel_max s.top_left_travel_min with
  | .error e => .error e
  | .ok ctl =>
    match travel_center_expr s.bottom_right_travel_max s.bottom_right_travel_min with
    | .error e => .error e
    | .ok cbr =>
      match travel_center_expr s.bottom_left_travel_max s.bottom_left_travel_min with
      | .error e => .error e
      | .ok cbl =>
        match travel_center_expr s.top_right_travel_max s.top_right_travel_min with
        | .error e => .error e
        | .ok ctr =>
          .ok [ Event.assignC .compute_centers .TL ctl,
                Event.assignC .compute_centers .BR cbr,
                Event.assignC .compute_centers .BL cbl,
                Event.assignC .compute_centers .TR ctr ]

/-- The whole top-level script: the calibration pass, then the center
computation of stage 3.1, then the final move of stage 3.2. Returns the
final travel state together with the full event trace; a TypeError during
the center computation aborts the script with a `pyCrash` event. -/
def programResult (r : Readings) : CalibState × List Event :=
  match centersEvents (calibState r) with
  | .error e => (calibState r, calibEvents r ++ [Event.pyCrash e])
  | .ok evs2 =>
      (runEvents (calibState r) evs2,
       calibEvents r ++ evs2
         ++ stageEvents .travel_center
              (travel_to_center SPEED_MAX_ANGLE_PER_SEC (runEvents (calibState r) evs2)))

-- Abstract model of the concurrency combinator and the telemetry task.

/-- Completion status of one task of a multitask group after the group
returns. -/
inductive TaskStatus
  | completed
  | cancelled
  | running
deriving DecidableEq

def optMin (a b : Option Nat) : Option Nat :=
  match a, b with
  | none, b => b
  | some a, none => some a
  | some a, some b => some (min a b)

/-- Modelled from the spec: the concurrency combinator (pybricks
multitask, an external collaborator). Each task is abstracted by the time
at which its stop condition is met (`none` if never). In race mode the
group finishes at the earliest such time. -/
def raceFinishTime (times : List (Option Nat)) : Option Nat :=
  times.foldr optMin none

/-- Modelled from the spec: after a race returns at the earliest finish
time, the tasks that finished then are completed and every other sibling
has been cancelled; if no task ever finishes, all remain running. -/
def raceStatuses (times : List (Option Nat)) : List TaskStatus :=
  match raceFinishTime times with
  | none => times.map (fun _ => TaskStatus.running)
  | some f => times.map (fun t => if t = some f then TaskStatus.completed else TaskStatus.cancelled)

/-- Modelled from the spec: join-all returns only when every task has met
its own stop condition; no task is cancelled. -/
def joinAllReturns (times : List (Option Nat)) : Bool :=
  times.all (fun t => t.isSome)

/-- The loop guard of `log_load` (line 187): literally `while True`. -/
def log_load_guard : Bool := true

/-- Whether the body of `log_load` (lines 188-196) contains any break or
return: it does not, it only prints and waits. -/
def log_load_body_exits : Bool := false

/-- Whether `log_load` has returned after at most `n` loop iterations:
it returns only if the guard fails or the body exits. -/
def log_load_completesWithin : Nat → Bool
  | 0 => false
  | n + 1 => ((!log_load_guard) || log_load_body_exits) || log_load_completesWithin n

/-- `run_task_monitored` (lines 199-204): races the wrapped stage task
against the telemetry task; the race finishes as soon as either does. The
wrapped task is abstracted by its completes-within predicate. -/
def run_task_monitored_completesWithin (task : Nat → Bool) (n : Nat) : Bool :=
  task n || log_load_completesWithin n

-- Derived helpers used to state the claims.

def corners : List Corner := [.TL, .BR, .TR, .BL]

/-- The diagonal pairing of the rig (module docstring, line 6): top-left
is strung to bottom-right, top-right to bottom-left. -/
def diagonalOf : Corner → Corner
  | .TL => .BR
  | .BR => .TL
  | .TR => .BL
  | .BL => .TR

/-- The two adjacent (non-diagonal) corners of a corner. -/
def adjacentOf : Corner → List Corner
  | .TL => [.TR, .BL]
  | .BR => [.TR, .BL]
  | .TR => [.TL, .BR]
  | .BL => [.TL, .BR]

def minFieldOf : Corner → Field
  | .TL => .top_left_travel_min
  | .BR => .bottom_right_travel_min
  | .TR => .top_right_travel_min
  | .BL => .bottom_left_travel_min

def maxFieldOf : Corner → Field
  | .TL => .top_left_travel_max
  | .BR => .bottom_right_travel_max
  | .TR => .top_right_travel_max
  | .BL => .bottom_left_travel_max

def leftNeighborFieldOf : Corner → Field
  | .TL => .top_left_travel_left_neighbor
  | .BR => .bottom_right_travel_left_neighbor
  | .TR => .top_right_travel_left_neighbor
  | .BL => .bottom_left_travel_left_neighbor

def rightNeighborFieldOf : Corner → Field
  | .TL => .top_left_travel_right_neighbor
  | .BR => .bottom_right_travel_right_neighbor
  | .TR => .top_right_travel_right_neighbor
  | .BL => .bottom_left_travel_right_neighbor

def cmdMotor : Cmd → Corner
  | .runUntilStalled m _ _ _ => m
  | .runTime m _ _ _ _ => m
  | .runTarget m _ _ _ => m
  | .holdPos m => m

def cmdSpeed : Cmd → Option Int
  | .runUntilStalled _ s _ _ => some s
  | .runTime _ s _ _ _ => some s
  | .runTarget _ s _ _ => some s
  | .holdPos _ => none

/-- Whether a stage belongs to the calibration pass: every stage of parts
1 and 2 of the script does; the center computation of stage 3.1 and the
final center move of stage 3.2 lie after calibration. -/
def isCalibTag : StageTag → Bool
  | .compute_centers => false
  | .travel_center => false
  | _ => true

def isReturnToOriginTag : StageTag → Bool
  | .return_to_origin _ => true
  | _ => false

/-- Per-command speed bound: every command is bounded by the operating
ceiling, and every calibration-stage command other than the
return-to-origin moves is bounded by the calibration ceiling. -/
def eventSpeedOk : Event → Bool
  | .command tag _ c =>
      match cmdSpeed c with
      | none => true
      | some s =>
          decide (s.natAbs ≤ SPEED_MAX_ANGLE_PER_SEC.natAbs)
          && (!(isCalibTag tag && !isReturnToOriginTag tag)
              || decide (s.natAbs ≤ SPEED_MAX_ANGLE_PER_SEC_CALIBRATION.natAbs))
  | _ => true

/-- The (stage, variable) pairs of all travel-variable assignments of a
trace, in order. -/
def boundWrites (es : List Event) : List (StageTag × Field) :=
  es.filterMap (fun e =>
    match e with
    | .assignB t f _ => some (t, f)
    | _ => none)

def countWrite (ws : List (StageTag × Field)) (t : StageTag) (f : Field) : Nat :=
  ws.countP (fun w => decide (w = (t, f)))

def countFieldWrites (ws : List (StageTag × Field)) (f : Field) : Nat :=
  ws.countP (fun w => decide (w.2 = f))

/-- The accumulation shape claimed for the travel profiles: each motor has
exactly one min write, occurring in its own save-zero step; exactly one
max write, occurring in the save-partners step of the iteration of its
diagonal partner; exactly one write to each neighbor field; and in the
save-partners step of each of its two adjacent corners exactly one of its
two neighbor fields is written. -/
def profileWritesOnce (ws : List (StageTag × Field)) : Bool :=
  corners.all (fun m =>
    (countFieldWrites ws (minFieldOf m) == 1)
    && (countWrite ws (.save_zero m) (minFieldOf m) == 1)
    && (countFieldWrites ws (maxFieldOf m) == 1)
    && (countWrite ws (.save_partners (diagonalOf m)) (maxFieldOf m) == 1)
    && (countFieldWrites ws (leftNeighborFieldOf m) == 1)
    && (countFieldWrites ws (rightNeighborFieldOf m) == 1)
    && (adjacentOf m).all (fun c =>
         (countWrite ws (.save_partners c) (leftNeighborFieldOf m)
            + countWrite ws (.save_partners c) (rightNeighborFieldOf m)) == 1))

/-- The (stage, motor) pairs of all direct hold commands of a trace. -/
def holdEvents (es : List Event) : List (StageTag × Corner) :=
  es.filterMap (fun e =>
    match e with
    | .command t _ (Cmd.holdPos m) => some (t, m)
    | _ => none)

def isCrashEvent : Event → Bool
  | .pyCrash _ => true
  | _ => false

/-- The drive-to-limit stage of each corner, at the calibration speed the
script passes (the source default). -/
def travel_to_zero_stage : Corner → Mode × List Cmd
  | .TL => travel_to_top_left_zero_position SPEED_MAX_ANGLE_PER_SEC_CALIBRATION
  | .BR => travel_to_bottom_right_zero_position SPEED_MAX_ANGLE_PER_SEC_CALIBRATION
  | .BL => travel_to_bottom_left_zero_position SPEED_MAX_ANGLE_PER_SEC_CALIBRATION
  | .TR => travel_to_top_right_zero_position SPEED_MAX_ANGLE_PER_SEC_CALIBRATION

/-- The partner-tensioning stage of each corner, at the calibration speed
the script passes. -/
def tension_partners_stage : Corner → Mode × List Cmd
  | .TL => tension_top_left_partners SPEED_MAX_ANGLE_PER_SEC_CALIBRATION
  | .BR => tension_bottom_right_partners SPEED_MAX_ANGLE_PER_SEC_CALIBRATION
  | .BL => tension_bottom_left_partners SPEED_MAX_ANGLE_PER_SEC_CALIBRATION
  | .TR => tension_top_right_partners SPEED_MAX_ANGLE_PER_SEC_CALIBRATION

/-- Shape of a drive-to-limit stage: race mode, four commands, every motor
exactly once, the driven corner at reel-in speed and the other three at
reel-out speed, each a run-until-stalled with Stop.HOLD under the
collision duty limit. -/
def driveStageOk (c : Corner) : Bool :=
  let s := travel_to_zero_stage c
  decide (s.1 = Mode.race)
  && (s.2.length == 4)
  && corners.all (fun m => s.2.countP (fun cmd => decide (cmdMotor cmd = m)) == 1)
  && s.2.all (fun cmd =>
       match cmd with
       | .runUntilStalled m sp st d =>
           decide (sp = SPEED_MAX_ANGLE_PER_SEC_CALIBRATION
                     * (if m = c then reel_in else reel_out))
           && decide (st = StopKind.hold)
           && decide (d = STALL_COLLISION_CLUTCH_DUTY_LIMIT)
       | _ => false)

/-- Shape of a tensioning stage over a given participant set: join-all
mode, one command per participant, each a reel-in run-until-stalled with
Stop.HOLD under the tension duty limit. -/
def tensionStageOk (parts : List Corner) (s : Mode × List Cmd) : Bool :=
  decide (s.1 = Mode.joinAll)
  && (s.2.length == parts.length)
  && parts.all (fun m => s.2.countP (fun cmd => decide (cmdMotor cmd = m)) == 1)
  && s.2.all (fun cmd =>
       match cmd with
       | .runUntilStalled _ sp st d =>
           decide (sp = SPEED_MAX_ANGLE_PER_SEC_CALIBRATION * reel_in)
           && decide (st = StopKind.hold)
           && decide (d = STALL_TENSION_CLUTCH_DUTY_LIMIT)
       | _ => false)

def partnersOf (c : Corner) : List Corner :=
  corners.filter (fun m => decide (m ≠ c))

/-- The reading recorded as the min bound of each motor (its own
save-zero step). -/
def recordedMin (r : Readings) : Corner → Int
  | .TL => r.ang_2_1_2_tl
  | .BR => r.ang_2_2_2_br
  | .TR => r.ang_2_4_2_tr
  | .BL => r.ang_2_3_2_bl

/-- The reading recorded as the max bound of each motor (the
save-partners step of its diagonal partner). -/
def recordedMax (r : Readings) : Corner → Int
  | .TL => r.ang_2_2_5_tl
  | .BR => r.ang_2_1_5_br
  | .TR => r.ang_2_3_5_tr
  | .BL => r.ang_2_4_5_bl

def centerOf (s : CalibState) : Corner → Option ℚ
  | .TL => s.top_left_travel_center
  | .BR => s.bottom_right_travel_center
  | .TR => s.top_right_travel_center
  | .BL => s.bottom_left_travel_center

/-- The integer-division reading of the center formula asserted by the
claim: `min + (max - min) / 2` with an integer rounding rule. -/
def center_integer_rule (mn mx : Int) : Int :=
  mn + (mx - mn) / 2

def mkReadings (x : Int) : Readings :=
  ⟨x, x, x, x, x, x, x, x, x, x, x, x, x, x, x, x, x, x, x, x⟩

def readingsC2 : Readings := mkReadings 0

/-- Readings where the top-left motor records min 0 (stage 2.1.2) and
max 1 (stage 2.2.5), all other readings zero. -/
def readingsC3 : Readings :=
  ⟨0, 0, 0, 0, 0, 0, 0, 0, 0, 1, 0, 0, 0, 0, 0, 0, 0, 0, 0, 0⟩

/-- Readings where the top-left motor records min 0 and max 1, all other
readings zero. -/
def readingsC10 : Readings :=
  ⟨0, 0, 0, 0, 0, 0, 0, 0, 0, 1, 0, 0, 0, 0, 0, 0, 0, 0, 0, 0⟩

/-- Success test of an Except value. -/
def isOkE {e a : Type} : Except e a → Bool
  | .ok _ => true
  | .error _ => false

/-- The speed bound exactly as the claim states it: every command of a
calibration stage at most the calibration ceiling, every other command at
most the operating ceiling. -/
def eventSpeedClaimed : Event → Bool
  | .command tag _ c =>
      match cmdSpeed c with
      | none => true
      | some s =>
          if isCalibTag tag then decide (s.natAbs ≤ SPEED_MAX_ANGLE_PER_SEC_CALIBRATION.natAbs)
          else decide (s.natAbs ≤ SPEED_MAX_ANGLE_PER_SEC.natAbs)
  | _ => true

-- Theorems.

set_option maxHeartbeats 1000000 in
/-- Claim C1: for every corner X, immediately after the drive-to-limit
stage of X records its travel bound, the program commands motor X itself
to hold. The trace shows this is violated at the bottom-left corner: the
hold command issued at stage 2.3.3 (line 611) targets the bottom-right
motor, not bottom-left, and the bottom-right motor is then commanded again
in the partner tensioning of that iteration, while bottom-left is never
held. This contradicts the comment at line 610 and the print at line 613,
which both name bottom-left. -/
theorem bottom_left_hold_targets_bottom_right (r : Readings) :
    holdEvents (programResult r).2 =
      [ (.hold_zero .TL, .TL), (.hold_zero .BR, .BR),
        (.hold_zero .BL, .BR), (.hold_zero .TR, .TR) ]
    ∧ (tension_bottom_left_partners SPEED_MAX_ANGLE_PER_SEC_CALIBRATION).2.countP
        (fun cmd => decide (cmdMotor cmd = Corner.BR)) = 1
    ∧ (tension_bottom_left_partners SPEED_MAX_ANGLE_PER_SEC_CALIBRATION).2.countP
        (fun cmd => decide (cmdMotor cmd = Corner.BL)) = 0 := by
  refine ⟨?_, by decide, by decide⟩
  simp [programResult, centersEvents, travel_center_expr, calibState, runEvents, applyEvent,
    setField, setCenter, calibEvents, relaxEvents, stageEvents, relax_tension,
    bring_under_tension, travel_to_top_left_zero_position, tension_top_left_partners,
    move_to_tensioned_calibration_origin, travel_to_bottom_right_zero_position,
    tension_bottom_right_partners, travel_to_bottom_left_zero_position,
    tension_bottom_left_partners, travel_to_top_right_zero_position,
    tension_top_right_partners, travel_to_center, holdEvents]

set_option maxHeartbeats 1000000 in
set_option maxRecDepth 100000 in
/-- Claim C2 counterexample: the claim that every calibration-stage
command is bounded by the calibration ceiling fails on the trace: the
return-to-origin stage 2.1.7, which lies inside the calibration pass,
commands run_target at the operating ceiling 1500, which exceeds the
calibration ceiling 300. The command at trace position 26 is such a
command. -/
theorem calibration_stage_exceeds_calibration_ceiling :
    ((programResult readingsC2).2.all eventSpeedClaimed) = false
    ∧ (programResult readingsC2).2[26]? =
        some (Event.command (.return_to_origin .TL) (some Mode.joinAll)
          (Cmd.runTarget .TL SPEED_MAX_ANGLE_PER_SEC (some ((0 : Int) : ℚ)) .coast))
    ∧ isCalibTag (.return_to_origin .TL) = true
    ∧ eventSpeedClaimed (Event.command (.return_to_origin .TL) (some Mode.joinAll)
          (Cmd.runTarget .TL SPEED_MAX_ANGLE_PER_SEC (some ((0 : Int) : ℚ)) .coast)) = false
    ∧ ¬ (SPEED_MAX_ANGLE_PER_SEC.natAbs ≤ SPEED_MAX_ANGLE_PER_SEC_CALIBRATION.natAbs) :=
  ⟨rfl, rfl, rfl, rfl, by decide⟩

set_option maxHeartbeats 1000000 in
/-- Claim C2 amended: every command of the program is bounded by the
operating ceiling 1500, and every calibration-stage command other than
those of the return-to-origin stages (which the specification itself puts
at the operating ceiling) is bounded by the calibration ceiling 300. -/
theorem speed_ceiling_amended (r : Readings) :
    ((programResult r).2.all eventSpeedOk) = true := by
  simp [programResult, centersEvents, travel_center_expr, calibState, runEvents, applyEvent,
    setField, setCenter, calibEvents, relaxEvents, stageEvents, relax_tension,
    bring_under_tension, travel_to_top_left_zero_position, tension_top_left_partners,
    move_to_tensioned_calibration_origin, travel_to_bottom_right_zero_position,
    tension_bottom_right_partners, travel_to_bottom_left_zero_position,
    tension_bottom_left_partners, travel_to_top_right_zero_position,
    tension_top_right_partners, travel_to_center,
    eventSpeedOk, cmdSpeed, isCalibTag, isReturnToOriginTag,
    SPEED_MAX_ANGLE_PER_SEC, SPEED_MAX_ANGLE_PER_SEC_CALIBRATION, reel_in, reel_out]

set_option maxHeartbeats 1000000 in
/-- Claim C3 counterexample: with top-left bounds min 0 and max 1, the
program computes center 1/2, which is not an integer, so the division of
the center formula does not follow an integer (or fixed-point integer)
rounding rule; the integer-division reading of the formula gives 0. -/
theorem center_integer_rule_counterexample :
    (programResult readingsC3).1.top_left_travel_center = some ((1 : ℚ) / 2)
    ∧ (¬ ∃ z : Int, ((z : ℚ)) = (1 : ℚ) / 2)
    ∧ center_integer_rule 0 1 = 0
    ∧ ((center_integer_rule 0 1 : Int) : ℚ) ≠ (1 : ℚ) / 2 := by
  have hc : (programResult readingsC3).1.top_left_travel_center =
      some (((1 - 0 : Int) : ℚ) / 2 + ((0 : Int) : ℚ)) := rfl
  refine ⟨?_, ?_, by decide, ?_⟩
  · rw [hc]; norm_num
  · rintro ⟨z, hz⟩
    have h2 : ((2 * z : Int) : ℚ) = 1 := by
      push_cast
      linarith
    have h3 : (2 * z : Int) = 1 := by exact_mod_cast h2
    omega
  · rw [show center_integer_rule 0 1 = 0 from by decide]
    norm_num

set_option maxHeartbeats 16000000 in
/-- Claim C3 amended: after a full calibration pass, every motor center
equals min + (max - min) / 2 exactly, where the division is the exact
rational division of Python true division; no integer or fixed-point
rounding rule is applied, and the result is a half-integer when
max - min is odd. -/
theorem center_formula_exact_rational (r : Readings) :
    (programResult r).1.top_left_travel_center =
      some ((r.ang_2_1_2_tl : ℚ) + ((r.ang_2_2_5_tl - r.ang_2_1_2_tl : Int) : ℚ) / 2)
    ∧ (programResult r).1.bottom_right_travel_center =
      some ((r.ang_2_2_2_br : ℚ) + ((r.ang_2_1_5_br - r.ang_2_2_2_br : Int) : ℚ) / 2)
    ∧ (programResult r).1.bottom_left_travel_center =
      some ((r.ang_2_3_2_bl : ℚ) + ((r.ang_2_4_5_bl - r.ang_2_3_2_bl : Int) : ℚ) / 2)
    ∧ (programResult r).1.top_right_travel_center =
      some ((r.ang_2_4_2_tr : ℚ) + ((r.ang_2_3_5_tr - r.ang_2_4_2_tr : Int) : ℚ) / 2) := by
  have h : (programResult r).1.top_left_travel_center =
      some (((r.ang_2_2_5_tl - r.ang_2_1_2_tl : Int) : ℚ) / 2 + ((r.ang_2_1_2_tl : Int) : ℚ))
    ∧ (programResult r).1.bottom_right_travel_center =
      some (((r.ang_2_1_5_br - r.ang_2_2_2_br : Int) : ℚ) / 2 + ((r.ang_2_2_2_br : Int) : ℚ))
    ∧ (programResult r).1.bottom_left_travel_center =
      some (((r.ang_2_4_5_bl - r.ang_2_3_2_bl : Int) : ℚ) / 2 + ((r.ang_2_3_2_bl : Int) : ℚ))
    ∧ (programResult r).1.top_right_travel_center =
      some (((r.ang_2_3_5_tr - r.ang_2_4_2_tr : Int) : ℚ) / 2 + ((r.ang_2_4_2_tr : Int) : ℚ)) := by
    simp [programResult, centersEvents, travel_center_expr, calibState, runEvents, applyEvent,
      setField, setCenter, calibEvents, relaxEvents, stageEvents, relax_tension,
      bring_under_tension, travel_to_top_left_zero_position, tension_top_left_partners,
      move_to_tensioned_calibration_origin, travel_to_bottom_right_zero_position,
      tension_bottom_right_partners, travel_to_bottom_left_zero_position,
      tension_bottom_left_partners, travel_to_top_right_zero_position,
      tension_top_right_partners]
  obtain ⟨h1, h2, h3, h4⟩ := h
  exact ⟨h1.trans (congrArg some (by push_cast; ring)),
         h2.trans (congrArg some (by push_cast; ring)),
         h3.trans (congrArg some (by push_cast; ring)),
         h4.trans (congrArg some (by push_cast; ring))⟩

set_option maxHeartbeats 16000000 in
/-- Claim C6: after all four corners have been visited once, every motor
TravelProfile holds exactly one min recorded in its own save-zero step,
exactly one max recorded in the save-partners step of the iteration of its
diagonal partner, and exactly two neighbor bounds recorded in the
save-partners steps of its two adjacent corners; every field is assigned
exactly once during the pass and the final state still carries exactly the
recorded readings (never rolled back). -/
theorem travel_profile_write_once (r : Readings) :
    profileWritesOnce (boundWrites (programResult r).2) = true
    ∧ (programResult r).1.top_left_travel_min = some r.ang_2_1_2_tl
    ∧ (programResult r).1.top_left_travel_max = some r.ang_2_2_5_tl
    ∧ (programResult r).1.top_left_travel_left_neighbor = some r.ang_2_4_5_tl
    ∧ (programResult r).1.top_left_travel_right_neighbor = some r.ang_2_3_5_tl
    ∧ (programResult r).1.bottom_right_travel_min = some r.ang_2_2_2_br
    ∧ (programResult r).1.bottom_right_travel_max = some r.ang_2_1_5_br
    ∧ (programResult r).1.bottom_right_travel_left_neighbor = some r.ang_2_3_5_br
    ∧ (programResult r).1.bottom_right_travel_right_neighbor = some r.ang_2_4_5_br
    ∧ (programResult r).1.top_right_travel_min = some r.ang_2_4_2_tr
    ∧ (programResult r).1.top_right_travel_max = some r.ang_2_3_5_tr
    ∧ (programResult r).1.top_right_travel_left_neighbor = some r.ang_2_2_5_tr
    ∧ (programResult r).1.top_right_travel_right_neighbor = some r.ang_2_1_5_tr
    ∧ (programResult r).1.bottom_left_travel_min = some r.ang_2_3_2_bl
    ∧ (programResult r).1.bottom_left_travel_max = some r.ang_2_4_5_bl
    ∧ (programResult r).1.bottom_left_travel_left_neighbor = some r.ang_2_1_5_bl
    ∧ (programResult r).1.bottom_left_travel_right_neighbor = some r.ang_2_2_5_bl := by
  simp [programResult, centersEvents, travel_center_expr, calibState, runEvents, applyEvent,
    setField, setCenter, calibEvents, relaxEvents, stageEvents, relax_tension,
    bring_under_tension, travel_to_top_left_zero_position, tension_top_left_partners,
    move_to_tensioned_calibration_origin, travel_to_bottom_right_zero_position,
    tension_bottom_right_partners, travel_to_bottom_left_zero_position,
    tension_bottom_left_partners, travel_to_top_right_zero_position,
    tension_top_right_partners, travel_to_center,
    profileWritesOnce, boundWrites, countWrite, countFieldWrites, corners,
    diagonalOf, adjacentOf, minFieldOf, maxFieldOf, leftNeighborFieldOf, rightNeighborFieldOf]

/-- Helper: the minimum of an optional-time pair is none only when both
components are none. -/
theorem optMin_eq_none (a b : Option Nat) : optMin a b = none ↔ a = none ∧ b = none := by
  cases a <;> cases b <;> simp [optMin]

/-- Helper: a race over tasks of which at least one finishes has a finish
time. -/
theorem raceFinishTime_ne_none (ts : List (Option Nat)) :
    (∃ t ∈ ts, t ≠ none) → raceFinishTime ts ≠ none := by
  induction ts with
  | nil => rintro ⟨t, ht, _⟩; cases ht
  | cons a l ih =>
    rintro ⟨t, ht, hne⟩ hcontra
    rw [raceFinishTime, List.foldr_cons, optMin_eq_none] at hcontra
    rcases List.mem_cons.mp ht with rfl | htl
    · exact hne hcontra.1
    · exact ih ⟨t, htl, hne⟩ hcontra.2

/-- Claim C4: every drive-to-limit stage is run in race mode with four
run-until-stalled commands, one per motor, the driven corner reeling in
and the other three reeling out, all with Stop.HOLD under the collision
stall-duty limit; and under the modelled race combinator, once any task
meets its stop condition every sibling is completed or cancelled, none
left running, when the stage returns. -/
theorem drive_to_limit_race_group :
    (∀ c, driveStageOk c = true)
    ∧ 0 < SPEED_MAX_ANGLE_PER_SEC_CALIBRATION * reel_in
    ∧ SPEED_MAX_ANGLE_PER_SEC_CALIBRATION * reel_out < 0
    ∧ ∀ times : List (Option Nat), (∃ t ∈ times, t ≠ none) →
        ∀ st ∈ raceStatuses times, st ≠ TaskStatus.running := by
  refine ⟨fun c => by cases c <;> decide, by decide, by decide, ?_⟩
  intro times h st hst
  have hf := raceFinishTime_ne_none times h
  cases hfin : raceFinishTime times with
  | none => exact absurd hfin hf
  | some f =>
      simp only [raceStatuses, hfin] at hst
      obtain ⟨t, _, rfl⟩ := List.mem_map.mp hst
      split <;> decide

/-- Witness for claim C4: the top-left drive stage has the required shape,
and in a race where the first task finishes at time 3, no sibling is left
running. -/
theorem drive_to_limit_race_group_witness :
    driveStageOk .TL = true
    ∧ ∀ st ∈ raceStatuses [some 3, none, none, none], st ≠ TaskStatus.running :=
  ⟨drive_to_limit_race_group.1 .TL,
   drive_to_limit_race_group.2.2.2 [some 3, none, none, none]
     ⟨some 3, by decide, by decide⟩⟩

/-- Claim C5: the initial tensioning commands all four motors, and each
per-corner partner tensioning commands exactly the three partners of the
driven corner, each reeling inward with Stop.HOLD under the tension
stall-duty limit, in join-all mode; and the modelled join-all combinator
returns exactly when every participating task has met its own stop
condition, so no tensioning is cut short by a sibling. -/
theorem tension_stages_join_all :
    tensionStageOk corners (bring_under_tension SPEED_MAX_ANGLE_PER_SEC_CALIBRATION) = true
    ∧ (∀ c, tensionStageOk (partnersOf c) (tension_partners_stage c) = true)
    ∧ ∀ times : List (Option Nat),
        joinAllReturns times = true ↔ ∀ t ∈ times, t ≠ none := by
  refine ⟨by decide, fun c => by cases c <;> decide, ?_⟩
  intro times
  simp [joinAllReturns, List.all_eq_true, Option.isSome_iff_ne_none]

/-- Witness for claim C5: a join over two finished tasks returns. -/
theorem tension_stages_join_all_witness :
    joinAllReturns [some 1, some 2] = true :=
  (tension_stages_join_all.2.2 [some 1, some 2]).mpr (by decide)

/-- Claim C7: relax_tension issues exactly one non-blocking reel-out
run_time command per motor, at the given speed and duration with
Stop.COAST, then waits exactly duration plus settle time; in the script
it runs at the calibration speed for RELAX_TIME and waits
RELAX_TIME + RELAX_SETTLE_TIME; duration and speed are configuration
arguments, and the command list depends on nothing else. -/
theorem relax_tension_contract :
    (∀ speed time add_wait : Int,
      (relax_tension speed time add_wait).2 = time + add_wait
      ∧ (relax_tension speed time add_wait).1.length = 4
      ∧ (∀ m : Corner,
          (relax_tension speed time add_wait).1.countP
            (fun cmd => decide (cmdMotor cmd = m)) = 1)
      ∧ ∀ cmd ∈ (relax_tension speed time add_wait).1, ∃ m,
          cmd = Cmd.runTime m (speed * reel_out) time .coast false)
    ∧ (relax_tension SPEED_MAX_ANGLE_PER_SEC_CALIBRATION RELAX_TIME RELAX_SETTLE_TIME).2
        = RELAX_TIME + RELAX_SETTLE_TIME
    ∧ (∀ tag, (relaxEvents tag).getLast? =
        some (Event.waitMs tag (RELAX_TIME + RELAX_SETTLE_TIME)))
    ∧ (∀ tag, (relaxEvents tag).countP (fun e =>
        match e with
        | .command _ _ (Cmd.runTime _ sp t _ w) =>
            decide (sp = SPEED_MAX_ANGLE_PER_SEC_CALIBRATION * reel_out)
            && decide (t = RELAX_TIME) && (w == false)
        | _ => false) = 4) := by
  refine ⟨?_, by decide, fun tag => rfl, fun tag => rfl⟩
  intro speed time add_wait
  refine ⟨rfl, rfl, fun m => by cases m <;> rfl, ?_⟩
  intro cmd hc
  simp only [relax_tension, List.mem_cons, List.not_mem_nil, or_false] at hc
  rcases hc with rfl | rfl | rfl | rfl
  · exact ⟨.TL, rfl⟩
  · exact ⟨.BR, rfl⟩
  · exact ⟨.TR, rfl⟩
  · exact ⟨.BL, rfl⟩

/-- Witness for claim C7 at speed 7, duration 9, settle 11, on the first
command of the list. -/
theorem relax_tension_contract_witness :
    (relax_tension 7 9 11).2 = 9 + 11
    ∧ (∃ m, Cmd.runTime .TL (7 * reel_out) 9 .coast false
          = Cmd.runTime m (7 * reel_out) 9 .coast false) :=
  ⟨(relax_tension_contract.1 7 9 11).1,
   (relax_tension_contract.1 7 9 11).2.2.2
     (Cmd.runTime .TL (7 * reel_out) 9 .coast false) (by decide)⟩

/-- Claim C8 counterexample: invoked on unset bounds, the center
computation of the source fails with the Python TypeError of None
arithmetic, not with a designated not-calibrated failure; and the
orchestrated move invoked on an uncalibrated state does not fail at all:
it passes the unset None center targets directly to run_target. -/
theorem uncalibrated_center_type_error :
    travel_center_expr none none = Except.error PyError.typeError
    ∧ PyError.typeError ≠ PyError.notCalibratedError
    ∧ centersEvents initState = Except.error PyError.typeError
    ∧ (travel_to_center SPEED_MAX_ANGLE_PER_SEC initState).2 =
        [ Cmd.runTarget .TL SPEED_MAX_ANGLE_PER_SEC none .hold,
          Cmd.runTarget .BR SPEED_MAX_ANGLE_PER_SEC none .hold,
          Cmd.runTarget .TR SPEED_MAX_ANGLE_PER_SEC none .hold,
          Cmd.runTarget .BL SPEED_MAX_ANGLE_PER_SEC none .hold ] :=
  ⟨rfl, by decide, rfl, rfl⟩

set_option maxHeartbeats 16000000 in
/-- Claim C8 amended: the source has no not-calibrated guard; instead, in
the fixed execution order of the script the center computation is only
reached after all eight min and max bounds are populated, so it succeeds
in every execution, the script never crashes on unset values, and all
four centers are set when the final move runs. -/
theorem centers_follow_population (r : Readings) :
    isOkE (centersEvents (calibState r)) = true
    ∧ (programResult r).2.countP isCrashEvent = 0
    ∧ (programResult r).1.top_left_travel_center ≠ none
    ∧ (programResult r).1.bottom_right_travel_center ≠ none
    ∧ (programResult r).1.bottom_left_travel_center ≠ none
    ∧ (programResult r).1.top_right_travel_center ≠ none
    ∧ (calibState r).top_left_travel_min ≠ none
    ∧ (calibState r).top_left_travel_max ≠ none
    ∧ (calibState r).bottom_right_travel_min ≠ none
    ∧ (calibState r).bottom_right_travel_max ≠ none
    ∧ (calibState r).top_right_travel_min ≠ none
    ∧ (calibState r).top_right_travel_max ≠ none
    ∧ (calibState r).bottom_left_travel_min ≠ none
    ∧ (calibState r).bottom_left_travel_max ≠ none := by
  simp [programResult, centersEvents, travel_center_expr, calibState, runEvents, applyEvent,
    setField, setCenter, calibEvents, relaxEvents, stageEvents, relax_tension,
    bring_under_tension, travel_to_top_left_zero_position, tension_top_left_partners,
    move_to_tensioned_calibration_origin, travel_to_bottom_right_zero_position,
    tension_bottom_right_partners, travel_to_bottom_left_zero_position,
    tension_bottom_left_partners, travel_to_top_right_zero_position,
    tension_top_right_partners, travel_to_center, isOkE, isCrashEvent]

/-- Claim C9: the telemetry loop log_load never terminates on its own (its
guard is literally true and its body has no exit), so a stage run through
run_task_monitored completes exactly when the wrapped stage task does: the
telemetry task is never the race winner and never ends a stage early. -/
theorem log_load_never_finishes_race :
    (∀ n, log_load_completesWithin n = false)
    ∧ ∀ task : Nat → Bool, ∀ n,
        run_task_monitored_completesWithin task n = task n := by
  have hl : ∀ n, log_load_completesWithin n = false := by
    intro n
    induction n with
    | zero => rfl
    | succ k ih =>
        simp [log_load_completesWithin, log_load_guard, log_load_body_exits, ih]
  exact ⟨hl, fun task n => by simp [run_task_monitored_completesWithin, hl n]⟩

/-- Helper: an integer plus half of an odd integer is never an integer. -/
theorem half_of_odd_not_intCast (mn mx : Int) (h : Odd (mx - mn)) :
    ¬ ∃ z : Int, ((z : ℚ)) = ((mx - mn : Int) : ℚ) / 2 + ((mn : Int) : ℚ) := by
  rintro ⟨z, hz⟩
  obtain ⟨k, hk⟩ := h
  have h2 : ((2 * (z - mn) : Int) : ℚ) = ((mx - mn : Int) : ℚ) := by
    push_cast
    push_cast at hz
    linarith
  have h3 : (2 * (z - mn) : Int) = mx - mn := by exact_mod_cast h2
  omega

set_option maxHeartbeats 40000000 in
/-- Claim C10: for every motor whose recorded bounds have odd span, the
computed center is a non-integer half-angle rational, and the final stage
passes exactly this unrounded value as the run_target target angle. -/
theorem odd_span_center_half_integer (r : Readings) (c : Corner)
    (h : Odd (recordedMax r c - recordedMin r c)) :
    ∃ q : ℚ,
      centerOf (programResult r).1 c = some q
      ∧ (¬ ∃ z : Int, ((z : ℚ)) = q)
      ∧ Cmd.runTarget c SPEED_MAX_ANGLE_PER_SEC (some q) .hold
          ∈ (travel_to_center SPEED_MAX_ANGLE_PER_SEC (programResult r).1).2 := by
  have hc : (programResult r).1.top_left_travel_center =
      some (((r.ang_2_2_5_tl - r.ang_2_1_2_tl : Int) : ℚ) / 2 + ((r.ang_2_1_2_tl : Int) : ℚ))
    ∧ (programResult r).1.bottom_right_travel_center =
      some (((r.ang_2_1_5_br - r.ang_2_2_2_br : Int) : ℚ) / 2 + ((r.ang_2_2_2_br : Int) : ℚ))
    ∧ (programResult r).1.bottom_left_travel_center =
      some (((r.ang_2_4_5_bl - r.ang_2_3_2_bl : Int) : ℚ) / 2 + ((r.ang_2_3_2_bl : Int) : ℚ))
    ∧ (programResult r).1.top_right_travel_center =
      some (((r.ang_2_3_5_tr - r.ang_2_4_2_tr : Int) : ℚ) / 2 + ((r.ang_2_4_2_tr : Int) : ℚ)) := by
    simp [programResult, centersEvents, travel_center_expr, calibState, runEvents, applyEvent,
      setField, setCenter, calibEvents, relaxEvents, stageEvents, relax_tension,
      bring_under_tension, travel_to_top_left_zero_position, tension_top_left_partners,
      move_to_tensioned_calibration_origin, travel_to_bottom_right_zero_position,
      tension_bottom_right_partners, travel_to_bottom_left_zero_position,
      tension_bottom_left_partners, travel_to_top_right_zero_position,
      tension_top_right_partners]
  obtain ⟨h1, h2, h3, h4⟩ := hc
  cases c with
  | TL =>
      refine ⟨_, h1, half_of_odd_not_intCast _ _ h, ?_⟩
      simp [travel_to_center, h1]
  | BR =>
      refine ⟨_, h2, half_of_odd_not_intCast _ _ h, ?_⟩
      simp [travel_to_center, h2]
  | TR =>
      refine ⟨_, h4, half_of_odd_not_intCast _ _ h, ?_⟩
      simp [travel_to_center, h4]
  | BL =>
      refine ⟨_, h3, half_of_odd_not_intCast _ _ h, ?_⟩
      simp [travel_to_center, h3]

/-- Witness for claim C10 at concrete readings where the top-left span is
1 (odd): the center is the non-integer 1/2 and is passed unrounded. -/
theorem odd_span_center_half_integer_witness :
    ∃ q : ℚ,
      centerOf (programResult readingsC10).1 .TL = some q
      ∧ (¬ ∃ z : Int, ((z : ℚ)) = q)
      ∧ Cmd.runTarget .TL SPEED_MAX_ANGLE_PER_SEC (some q) .hold
          ∈ (travel_to_center SPEED_MAX_ANGLE_PER_SEC (programResult readingsC10).1).2 :=
  odd_span_center_half_integer readingsC10 .TL ⟨0, by decide⟩

end CableRobot
